import Mathlib

/-!
Shallow embedding of the SceneHF backend core (src/backend/app/core and
src/backend/app/models/schemas.py) and proofs about it.

Modelling conventions:
* Python dicts keyed by strings become association lists (`List (String × α)`).
* Machine-level image data is abstracted: an `Img` carries the pixel
  statistics that `validators.py` measures with numpy (width, height,
  nonwhite ratio for the >= 250 threshold, near-white ratio for the
  240..249 band, the two diagnostic band ratios) plus the alpha flag that
  `runner.py` inspects.  The decision logic of the validators is translated
  verbatim over these statistics.
* The filesystem is a map from path strings to `Img` values; `uuid4` /
  timestamp generation becomes a fresh counter / clock threaded through the
  storage state.
* External provider services (fal, vertex, google, openai) are oracles in an
  `Env` record: an availability flag (configuration probe) and the result of
  an invocation (`Except String Img`, error = raised exception message).
-/

/-- JobStatus, schemas.py lines 7-13. -/
inductive JobStatus
  | IDLE | PLANNED | RUNNING | PAUSED | DONE | FAILED
  deriving DecidableEq, Repr

/-- StepType.  schemas.py lines 16-21 declares ANALYZE, EXTRACT, REMOVE,
BG_REMOVE, REFRAME; runner.py additionally references StepType.EDIT and
StepType.UPSCALE (lines 210, 396, 471, 478, 498) and the spec data model
lists all seven, so the runner-visible type has all seven constructors. -/
inductive StepType
  | ANALYZE | EXTRACT | REMOVE | BG_REMOVE | REFRAME | EDIT | UPSCALE
  deriving DecidableEq, Repr

/-- StepStatus, schemas.py lines 24-31. -/
inductive StepStatus
  | QUEUED | RUNNING | SUCCESS | NEEDS_REVIEW | FAILED | SKIPPED | CANCELLED
  deriving DecidableEq, Repr

/-- AssetKind, schemas.py lines 34-40 plus the GENERATION kind used by
runner.py line 204 and storage.py line 185. -/
inductive AssetKind
  | SOURCE | PLATE | LAYER | MASK | BG_REMOVED | GENERATION | DEBUG
  deriving DecidableEq, Repr

/-- StepAction, schemas.py lines 59-64. -/
inductive StepAction
  | ACCEPT | RETRY | BG_REMOVE | PLATE_AND_RETRY | STOP
  deriving DecidableEq, Repr

/-- MaskMode, schemas.py lines 66-69. -/
inductive MaskMode
  | NONE | AUTO | MANUAL
  deriving DecidableEq, Repr

/-- Abstraction of an on-disk image: the statistics validators.py measures
(with white threshold 250 and near-white threshold 240) plus the
alpha-channel flag runner.py line 385 inspects. -/
structure Img where
  width : Nat
  height : Nat
  nonwhite_ratio : Rat
  near_white_ratio : Rat
  top_band_nonwhite : Rat
  bottom_band_nonwhite : Rat
  has_alpha : Bool := false
  deriving DecidableEq, Repr

/-- ValidationResult, schemas.py lines 52-56. -/
structure ValidationResult where
  passed : Bool
  status : StepStatus
  metrics : List (String × Rat)
  notes : String
  deriving DecidableEq, Repr

/-- Per-step image_config dict, with the keys the cited runner code reads
(provider, model at runner.py 213-214; factor / upscale_model / fal_model at
165-167). -/
structure ImageConfig where
  provider : Option String := none
  model : Option String := none
  factor : Option Int := none
  upscale_model : Option String := none
  fal_model : Option String := none
  deriving DecidableEq, Repr

/-- Step record, schemas.py lines 78-98; runner.py additionally reads and
writes outputs_history, last_run_id and last_prompt_used (lines 440-442). -/
structure Step where
  id : String
  index : Nat
  name : String
  type : StepType
  status : StepStatus := .QUEUED
  input_asset_id : Option String := none
  output_asset_id : Option String := none
  mask_mode : MaskMode := .NONE
  mask_asset_id : Option String := none
  mask_prompt : Option String := none
  prompt : String := ""
  custom_prompt : Option String := none
  image_config : Option ImageConfig := none
  validation : Option ValidationResult := none
  actions_available : List StepAction := []
  logs : List String := []
  outputs_history : List String := []
  last_run_id : Option String := none
  last_prompt_used : Option String := none
  deriving DecidableEq, Repr

/-- Asset record, schemas.py lines 43-49; storage.py additionally records
step_id (lines 138, 205, 311) which recovery keys on. -/
structure Asset where
  id : String
  kind : AssetKind
  path : String
  step_id : Option String := none
  created_at : Nat := 0
  deriving DecidableEq, Repr

/-- PlanStep with the field the runner reads (validation_rules,
runner.py line 451). -/
structure PlanStep where
  id : String
  validation_rules : List (String × Rat) := []
  deriving DecidableEq, Repr

structure Plan where
  steps : List PlanStep := []
  deriving DecidableEq, Repr

/-- Job metadata dict, with the keys the cited code reads:
latest_plate_asset_id (runner.py 527, 534), image_api_key (225, 265, 292,
323), image_config (212), upscale_config (165), fal_api_key (136). -/
structure Metadata where
  latest_plate_asset_id : Option String := none
  image_api_key : Option String := none
  image_config : Option ImageConfig := none
  upscale_config : Option ImageConfig := none
  fal_api_key : Option String := none
  deriving DecidableEq, Repr

/-- Job record, schemas.py lines 118-127 (assets dict as an assoc list in
insertion order). -/
structure Job where
  id : String
  status : JobStatus := .IDLE
  source_image : Option String := none
  plan : Option Plan := none
  steps : List Step := []
  assets : List (String × Asset) := []
  metadata : Metadata := {}
  updated_at : Nat := 0
  deriving DecidableEq, Repr

/-- First-match association-list lookup (Python dict access by key). -/
def assocFind {α : Type} (l : List (String × α)) (k : String) : Option α :=
  match l with
  | [] => none
  | (k0, v) :: rest => if k0 = k then some v else assocFind rest k

/-- Association-list update: replace the first binding of the key, append if
absent (dict assignment / file overwrite). -/
def assocSet {α : Type} (l : List (String × α)) (k : String) (v : α) :
    List (String × α) :=
  match l with
  | [] => [(k, v)]
  | (k0, v0) :: rest =>
      if k0 = k then (k0, v) :: rest else (k0, v0) :: assocSet rest k v

/-- Python `a or b` on optional strings: None and the empty string are
falsy. -/
def pyOr (a : Option String) (b : Option String) : Option String :=
  match a with
  | some s => if s = "" then b else some s
  | none => b

/-- Does the first character list start the second? -/
def listStarts : List Char → List Char → Bool
  | [], _ => true
  | _ :: _, [] => false
  | p :: ps, c :: cs => p = c && listStarts ps cs

/-- Is the first character list a contiguous infix of the second? -/
def listInfix (pat : List Char) : List Char → Bool
  | [] => listStarts pat []
  | c :: cs => listStarts pat (c :: cs) || listInfix pat cs

/-- Substring test (Python `in` on strings), over the character lists. -/
def strContains (s pat : String) : Bool :=
  listInfix pat.toList s.toList

/-- str.startswith over the character lists. -/
def strStartsWith (s pre : String) : Bool :=
  listStarts pre.toList s.toList

/-- Split a character list on a separator character. -/
def splitOnChar (sep : Char) : List Char → List (List Char)
  | [] => [[]]
  | c :: cs =>
      let r := splitOnChar sep cs
      if c = sep then [] :: r
      else
        match r with
        | [] => [[c]]
        | h :: t => (c :: h) :: t

/-- Python str.split with a one-character separator. -/
def strSplit (s : String) (sep : Char) : List String :=
  (splitOnChar sep s.toList).map String.mk

/-- str.lower, character by character. -/
def strToLower (s : String) : String :=
  String.mk (s.toList.map Char.toLower)

/-- rules.get(key, default) for a validation-rules dict. -/
def rulesGet (rules : List (String × Rat)) (k : String) (d : Rat) : Rat :=
  (assocFind rules k).getD d

/-- Kernel-reducible rational subtraction (used instead of Rat.sub, whose
normalization does not reduce inside the kernel); ratSub_eq below proves it
is subtraction. -/
def ratSub (a b : Rat) : Rat :=
  mkRat (a.num * b.den - b.num * a.den) (a.den * b.den)

theorem ratSub_eq (a b : Rat) : ratSub a b = a - b := by
  rw [Rat.sub_def, ratSub, Rat.normalize_eq_mkRat]

/-- Simplified rendering of Python "%.2f%%"-style percentage interpolation:
the ratio is rendered as numerator/denominator.  Only the prose around the
number matters to the claims. -/
def pct (q : Rat) : String :=
  toString q.num ++ "/" ++ toString q.den

/-- validators.py lines 40-114: the decision body of validate_extraction on
two opened images (the numpy measurement is the Img abstraction). -/
def measure_extraction (img source_img : Img) (rules : List (String × Rat)) :
    ValidationResult :=
  if ¬ (img.width = source_img.width ∧ img.height = source_img.height) then
    { passed := false, status := .FAILED, metrics := [("size_match", 0)],
      notes := "Size mismatch" }
  else
    let nonwhite_ratio := img.nonwhite_ratio
    let white_purity : Rat := ratSub 1 img.near_white_ratio
    let metrics : List (String × Rat) :=
      [("size_match", 1), ("nonwhite_ratio", nonwhite_ratio),
       ("white_purity", white_purity),
       ("top_band_nonwhite", img.top_band_nonwhite),
       ("bottom_band_nonwhite", img.bottom_band_nonwhite)]
    let min_nonwhite := rulesGet rules "min_nonwhite" (mkRat 1 100)
    let max_nonwhite := rulesGet rules "max_nonwhite" (mkRat 1 2)
    if nonwhite_ratio < min_nonwhite then
      { passed := false, status := .FAILED, metrics := metrics,
        notes := "Output too empty (" ++ pct nonwhite_ratio ++
          " content, expected >" ++ pct min_nonwhite ++ ")" }
    else if nonwhite_ratio > max_nonwhite then
      { passed := true, status := .NEEDS_REVIEW, metrics := metrics,
        notes := "High content ratio (" ++ pct nonwhite_ratio ++ ")" }
    else if white_purity < mkRat 95 100 then
      { passed := true, status := .NEEDS_REVIEW, metrics := metrics,
        notes := "White purity low (" ++ pct white_purity ++ ")" }
    else
      { passed := true, status := .SUCCESS, metrics := metrics,
        notes := "Validation passed" }

/-- validators.py validate_extraction including the try/except boundary
(lines 32-34 open the two paths; any failure is converted to a FAILED
result, lines 116-122).  `files` is the on-disk path-to-image map. -/
def validate_extraction (files : List (String × Img))
    (image_path source_path : String) (rules : List (String × Rat)) :
    ValidationResult :=
  match assocFind files image_path, assocFind files source_path with
  | some img, some src => measure_extraction img src rules
  | _, _ =>
      { passed := false, status := .FAILED, metrics := [],
        notes := "Validation error: cannot open image" }

/-- validators.py lines 141-184: decision body of validate_plate. -/
def measure_plate (img source_img : Img) (rules : List (String × Rat)) :
    ValidationResult :=
  if ¬ (img.width = source_img.width ∧ img.height = source_img.height) then
    { passed := false, status := .FAILED, metrics := [("size_match", 0)],
      notes := "Size mismatch" }
  else
    let nonwhite_ratio := img.nonwhite_ratio
    let metrics : List (String × Rat) :=
      [("size_match", 1), ("nonwhite_ratio", nonwhite_ratio)]
    let min_nonwhite := rulesGet rules "min_nonwhite" (mkRat 2 10)
    if nonwhite_ratio < min_nonwhite then
      { passed := false, status := .FAILED, metrics := metrics,
        notes := "Plate too empty (" ++ pct nonwhite_ratio ++
          ", expected >" ++ pct min_nonwhite ++ ")" }
    else
      { passed := true, status := .SUCCESS, metrics := metrics,
        notes := "Plate validation passed" }

/-- validators.py validate_plate including the try/except boundary. -/
def validate_plate (files : List (String × Img))
    (image_path source_path : String) (rules : List (String × Rat)) :
    ValidationResult :=
  match assocFind files image_path, assocFind files source_path with
  | some img, some src => measure_plate img src rules
  | _, _ =>
      { passed := false, status := .FAILED, metrics := [],
        notes := "Validation error: cannot open image" }

/-! ## PubSub (src/backend/app/core/pubsub.py) -/

/-- An asyncio.Queue as pubsub.py uses it: an optional capacity bound and the
queued SSE strings.  asyncio.Queue() with no argument is unbounded
(capacity none). -/
structure PQueue where
  capacity : Option Nat
  items : List String
  deriving DecidableEq, Repr

/-- Registry of subscriber queues per job id (pubsub.py line 12). -/
def PubSubState : Type := List (String × List PQueue)

/-- pubsub.py lines 16-17: subscribe creates a fresh queue with
asyncio.Queue() — no maxsize, hence no capacity bound — and registers it
under the job id. -/
def subscribe_register (ps : PubSubState) (job_id : String) : PubSubState :=
  match assocFind ps job_id with
  | some qs => assocSet ps job_id (qs ++ [{ capacity := none, items := [] }])
  | none => assocSet ps job_id [{ capacity := none, items := [] }]

/-- SSE formatting, pubsub.py line 35 (`json.dumps data` abstracted to the
already-rendered payload string). -/
def sse_format (event_type data : String) : String :=
  "event: " ++ event_type ++ "\ndata: " ++ data ++ "\n\n"

/-- queue.put_nowait with the QueueFull drop branch, pubsub.py lines 38-43:
a queue at capacity silently skips the event. -/
def pqueue_put (q : PQueue) (e : String) : PQueue :=
  match q.capacity with
  | some c => if c ≤ q.items.length then q else { q with items := q.items ++ [e] }
  | none => { q with items := q.items ++ [e] }

/-- pubsub.py emit, lines 29-43: no-op when nobody is subscribed for the
job, otherwise fan the SSE-formatted event out to every registered queue. -/
def pubsub_emit (ps : PubSubState) (job_id event_type data : String) :
    PubSubState :=
  match assocFind ps job_id with
  | none => ps
  | some qs =>
      let sse := sse_format event_type data
      assocSet ps job_id (qs.map (fun q => pqueue_put q sse))

/-! ## Storage (src/backend/app/core/storage.py)

Event sink for the runner: the emit_log / emit_step_updated /
emit_job_updated convenience emitters of pubsub.py are recorded as an event
trace (their delivery through subscriber queues is `pubsub_emit` above). -/

inductive Ev
  | log (job_id : String) (message : String) (level : String)
  | stepUpdated (job_id : String) (step : Step)
  | jobUpdated (job_id : String)
  deriving DecidableEq, Repr

/-- One history record, the fields runner.py lines 76-85 and 557-578
populate. -/
structure HistoryRecord where
  job_id : String
  step_id : String
  run_id : String
  prompt_base : String
  prompt_custom : Option String := none
  prompt_full : Option String := none
  input_asset_path : Option String := none
  output_asset_path : Option String := none
  output_asset_id : Option String := none
  validation_status : Option StepStatus := none
  validation_notes : Option String := none
  error : Option String := none
  finished_at : Nat := 0
  deriving DecidableEq, Repr

/-- World state: persisted job records (new root and legacy root), the
on-disk image files by path, written history records, the emitted event
trace, a fresh-name supply standing for uuid4, and a clock standing for
datetime timestamps. -/
structure St where
  jobs : List (String × Job) := []
  legacy_jobs : List (String × Job) := []
  files : List (String × Img) := []
  history : List HistoryRecord := []
  events : List Ev := []
  fresh : Nat := 0
  time : Nat := 0
  deriving DecidableEq, Repr

def emit_log (st : St) (job_id message level : String) : St :=
  { st with events := st.events ++ [.log job_id message level] }

def emit_step_updated (st : St) (job_id : String) (step : Step) : St :=
  { st with events := st.events ++ [.stepUpdated job_id step] }

def emit_job_updated (st : St) (job_id : String) : St :=
  { st with events := st.events ++ [.jobUpdated job_id] }

/-- storage.new_run_id (uuid4 hex prefix), modelled by the fresh supply. -/
def new_run_id (st : St) : String × St :=
  ("run" ++ toString st.fresh, { st with fresh := st.fresh + 1 })

def new_uuid (st : St) : String × St :=
  ("uuid" ++ toString st.fresh, { st with fresh := st.fresh + 1 })

/-- storage.save_job, lines 97-103: refresh updated_at and atomically
replace the persisted record. -/
def save_job (st : St) (job : Job) : St :=
  { st with jobs := assocSet st.jobs job.id { job with updated_at := st.time } }

/-- Replace the first step with the given id (Python mutates the step
object held inside job.steps in place; ids are unique per job). -/
def updStep (job : Job) (step : Step) : Job :=
  { job with steps := job.steps.map (fun s => if s.id = step.id then step else s) }

/-- storage._import_missing_assets, lines 163-212: scan the job's assets
directory for image files not yet referenced by job.assets and register
them, inferring owning step and kind from the filename.  The directory scan
is the file map filtered by the job's assets-directory prefix. -/
def infer_step_id (name : String) : Option String :=
  (strSplit name (Char.ofNat 0x5f)).find? (fun part => strStartsWith part "s" && part.length ≤ 4)

def infer_kind (name : String) : AssetKind :=
  let lower := strToLower name
  if strContains lower "mask" then .MASK
  else if strContains lower "bg_removed" then .BG_REMOVED
  else .GENERATION

def assets_dir_of (job_id : String) : String :=
  "jobs/" ++ job_id ++ "/assets/"

def file_name_of (path : String) : String :=
  (strSplit path (Char.ofNat 0x2f)).getLastD ""

def import_step (existing : List String) (acc : Job × Bool × St)
    (kv : String × Img) : Job × Bool × St :=
  let (job, added, st) := acc
  let name := file_name_of kv.1
  if name ∈ job.assets.map (fun a => file_name_of a.2.path) ∨
     name ∈ existing then
    (job, added, st)
  else
    let (aid, st) := new_uuid st
    let asset : Asset :=
      { id := aid, kind := infer_kind name, path := kv.1,
        step_id := infer_step_id name, created_at := st.time }
    ({ job with assets := job.assets ++ [(aid, asset)] }, true, st)

def import_missing_assets (st : St) (job : Job) : Job × Bool × St :=
  let dir := assets_dir_of job.id
  let existing := job.assets.map (fun kv => file_name_of kv.2.path)
  (st.files.filter (fun kv => strStartsWith kv.1 dir)).foldl
    (import_step existing) (job, false, st)

/-- Python `sorted(candidates, key=created_at, reverse=True)[0]`: the first
candidate among those with maximal created_at (stable sort). -/
def newest_asset (a : Asset) (rest : List Asset) : Asset :=
  rest.foldl (fun best x => if best.created_at < x.created_at then x else best) a

/-- storage._recover_missing_outputs, lines 128-161: import orphan files,
then for every step with no output asset but with assets owned by it,
reattach the newest such asset, promoting CANCELLED/QUEUED/FAILED steps to
NEEDS_REVIEW with the standard review actions; save the job when anything
changed. -/
def recover_step (assets : List (String × Asset)) (step : Step) :
    Step × Bool :=
  if step.output_asset_id.isSome then (step, false)
  else
    match (assets.map (·.2)).filter (fun a => a.step_id = some step.id) with
    | [] => (step, false)
    | a :: rest =>
        let latest := newest_asset a rest
        let step := { step with output_asset_id := some latest.id }
        let step :=
          if step.status = .CANCELLED ∨ step.status = .QUEUED ∨
             step.status = .FAILED then
            { step with
              status := .NEEDS_REVIEW
              validation := none
              actions_available :=
                [.ACCEPT, .RETRY, .BG_REMOVE, .PLATE_AND_RETRY] }
          else step
        let step :=
          if latest.id ∈ step.outputs_history then step
          else { step with outputs_history := step.outputs_history ++ [latest.id] }
        (step, true)

def recover_missing_outputs (st : St) (job : Job) : Job × St :=
  let (job, imported, st) := import_missing_assets st job
  let stepResults := job.steps.map (recover_step job.assets)
  let job := { job with steps := stepResults.map (·.1) }
  let changed := imported ∨ stepResults.any (·.2)
  if changed then (job, save_job st job) else (job, st)

/-- storage.load_job, lines 105-126: read the record from the new root,
else the legacy root; run the recovery pass on every successful load. -/
def load_job (st : St) (job_id : String) : Option Job × St :=
  match assocFind st.jobs job_id with
  | some job =>
      let (job, st) := recover_missing_outputs st job
      (some job, st)
  | none =>
      match assocFind st.legacy_jobs job_id with
      | some job =>
          let (job, st) := recover_missing_outputs st job
          (some job, st)
      | none => (none, st)

/-- storage._candidate_paths, lines 238-250: the recorded path is tried
against several roots; resolution succeeds at the first candidate that
exists on disk.  Assets written by this model use job-relative paths
directly, and the legacy root is kept as the second candidate. -/
def candidate_paths (asset_path : String) : List String :=
  [asset_path, "legacy/" ++ asset_path]

/-- storage.get_asset_path, lines 252-260: reload the job (recovery pass
included), then return the first existing candidate path of the asset, or
None when the job is missing, the asset id is unknown, or no candidate
exists on disk.  The asset-id argument is optional because runner.py passes
job.source_image (itself optional) straight through. -/
def get_asset_path (st : St) (job_id : String) (asset_id : Option String) :
    Option String × St :=
  let (jobOpt, st) := load_job st job_id
  match jobOpt, asset_id with
  | none, _ => (none, st)
  | some _, none => (none, st)
  | some job, some aid =>
      match assocFind job.assets aid with
      | none => (none, st)
      | some asset =>
          ((candidate_paths asset.path).find?
            (fun c => (assocFind st.files c).isSome), st)

/-- storage.save_image, lines 325-367: write the image under a
collision-safe timestamped name in the requested subfolder, create the
Asset record, insert it into the (passed-in) job's asset map and save the
job.  The collision-avoidance counter of _unique_path is subsumed by the
fresh-name supply. -/
def save_image (st : St) (job_id step_id run_id kind : String) (img : Img)
    (asset_kind : AssetKind) (job : Job) (subdir : String) :
    Asset × Job × St :=
  let (aid, st) := new_uuid st
  let dest := "jobs/" ++ job_id ++ "/assets/" ++ subdir ++ "/" ++
    toString st.time ++ "_" ++ step_id ++ "_" ++ run_id ++ "_" ++ kind ++
    "_" ++ aid ++ ".png"
  let st := { st with files := assocSet st.files dest img }
  let asset : Asset :=
    { id := aid, kind := asset_kind, path := dest, step_id := some step_id,
      created_at := st.time }
  let job := { job with assets := job.assets ++ [(aid, asset)] }
  let st := save_job st job
  (asset, job, st)

/-- storage.save_mask, lines 369-387: save_image with mask kind into the
masks subfolder. -/
def save_mask (st : St) (job_id step_id run_id : String) (img : Img)
    (job : Job) : Asset × Job × St :=
  save_image st job_id step_id run_id "mask" img .MASK job "masks"

/-- storage.write_history, lines 390-398 (the runner wraps this in a
best-effort try/except; the model write always succeeds). -/
def write_history (st : St) (rec : HistoryRecord) : St :=
  { st with history := st.history ++ [rec] }

/-! ## Runner (src/backend/app/core/runner.py)

External provider services are oracles: availability flags model the
configuration probes (`get_*_service` returning a client or None,
`fal_service` import-time singletons), and invocation results are
`Except String Img` (error = exception message raised by the call). -/

structure Env where
  fal_service : Bool
  fal_upscale_service : Bool
  vertex_available : Bool
  google_available : Option String → Bool
  openai_available : Option String → Bool
  fal_remove_bg : Except String Img
  fal_upscale : Int → Except String Img
  openai_extract : Except String Img
  openai_remove : Except String Img
  gemini_edit : Except String Img
  gemini_edit_with_mask : Except String Img
  vertex_edit : Except String Img
  flatten_white : Img → Img
  reframe_fit : Img → Nat → Nat → Img
  load_mask_binary : Img → Img

/-- Python truthiness of an optional string argument. -/
def pyTruthy (o : Option String) : Bool :=
  match o with
  | some s => s ≠ ""
  | none => false

def optStr (o : Option String) : String := o.getD "None"

/-- StepType.value.lower(). -/
def stepTypeLabel : StepType → String
  | .ANALYZE => "analyze"
  | .EXTRACT => "extract"
  | .REMOVE => "remove"
  | .BG_REMOVE => "bg_remove"
  | .REFRAME => "reframe"
  | .EDIT => "edit"
  | .UPSCALE => "upscale"

/-- StepStatus.value. -/
def stepStatusName : StepStatus → String
  | .QUEUED => "QUEUED"
  | .RUNNING => "RUNNING"
  | .SUCCESS => "SUCCESS"
  | .NEEDS_REVIEW => "NEEDS_REVIEW"
  | .FAILED => "FAILED"
  | .SKIPPED => "SKIPPED"
  | .CANCELLED => "CANCELLED"

/-- Provider selection, runner.py lines 212-261: smart selection when the
provider is unset or vertex/google, with the google/vertex/model-hint/
fallback preference chain and the aggregated configuration error; any other
explicitly requested provider is used as-is. -/
def route_provider (env : Env) (image_provider : Option String)
    (image_model : String) (img_api_key : Option String) :
    Except String String :=
  if image_provider = none ∨ image_provider = some "vertex" ∨
     image_provider = some "google" then
    let v_service := env.vertex_available
    let google_service := env.google_available img_api_key
    let openai_service := env.openai_available img_api_key
    if image_provider = some "google" ∧ google_service then .ok "google"
    else if image_provider = some "vertex" ∧ v_service then .ok "vertex"
    else if strContains (strToLower image_model) "gemini" ∧ google_service then
      .ok "google"
    else if v_service then .ok "vertex"
    else if google_service then .ok "google"
    else if openai_service then .ok "openai"
    else
      let details :=
        (if ¬ v_service then ["Vertex AI (GCP_PROJECT_ID not set)"] else []) ++
        (if ¬ google_service then ["Google Image Service (API key missing)"] else []) ++
        (if ¬ openai_service then ["OpenAI Image Service (API key missing)"] else [])
      .error ("No image generation services available. Attempted followings: " ++
        String.intercalate ", " details ++
        ". Please check your API keys in Settings.")
  else .ok (image_provider.getD "")

/-- Manual-mask provider override, runner.py lines 263-270: a MANUAL mask
forces the google provider when it is available, else raises. -/
def mask_override (env : Env) (mask_mode : MaskMode)
    (img_api_key : Option String) (chosen_provider : String) :
    Except String String :=
  let needs_masked_ai := mask_mode = MaskMode.MANUAL
  if mask_mode = MaskMode.MANUAL ∧ needs_masked_ai ∧
     chosen_provider ≠ "google" then
    if env.google_available img_api_key then .ok "google"
    else .error "Manual mask requires Google (Gemini) image service, but it is unavailable."
  else .ok chosen_provider

/-- Clean-plate propagation, runner.py lines 523-536: after a REMOVE step
with an output and SUCCESS/NEEDS_REVIEW status, repoint every later-indexed
step whose input is unset or still the previously recorded latest-plate
asset to the new output, and update the latest-plate pointer.  Returns the
updated job and the updated_future_steps flag. -/
def propagate_clean_plate (job : Job) (step : Step) : Job × Bool :=
  if step.type = .REMOVE ∧ step.output_asset_id.isSome ∧
     (step.status = .SUCCESS ∨ step.status = .NEEDS_REVIEW) then
    let previous_plate_id := job.metadata.latest_plate_asset_id
    let repoint := fun (fs : Step) =>
      ¬ fs.index ≤ step.index ∧
        (fs.input_asset_id = none ∨ fs.input_asset_id = previous_plate_id)
    let steps := job.steps.map (fun fs =>
      if fs.index ≤ step.index then fs
      else if fs.input_asset_id = none ∨ fs.input_asset_id = previous_plate_id
      then { fs with input_asset_id := step.output_asset_id }
      else fs)
    let updated_future_steps := job.steps.any (fun fs => decide (repoint fs))
    ({ job with
        steps := steps
        metadata := { job.metadata with
          latest_plate_asset_id := step.output_asset_id } },
     updated_future_steps)
  else (job, false)

/-- runner.py lines 447-451: validation rules from the plan step with the
same id, else an empty rules dict. -/
def validation_rules_for (job : Job) (step : Step) : List (String × Rat) :=
  match job.plan with
  | some plan =>
      match plan.steps.find? (fun ps => ps.id == step.id) with
      | some ps => ps.validation_rules
      | none => []
  | none => []

/-- Validation dispatch, runner.py lines 453-491.  The REFRAME branch calls
validator.validate_reframe (line 466), but validators.py defines only
validate_extraction and validate_plate, so in the source this attribute
access raises AttributeError, modelled as an error result. -/
def dispatch_validation (files : List (String × Img)) (stype : StepType)
    (output_path source_path : String) (rules : List (String × Rat))
    (upscale_factor : Int) : Except String ValidationResult :=
  match stype with
  | .EXTRACT => .ok (validate_extraction files output_path source_path rules)
  | .REMOVE => .ok (validate_plate files output_path source_path rules)
  | .REFRAME =>
      .error "AttributeError: Validator object has no attribute validate_reframe"
  | .EDIT =>
      .ok { passed := true, status := .SUCCESS, metrics := [],
            notes := "Edit completed (no validation applied)." }
  | .UPSCALE =>
      .ok { passed := true, status := .SUCCESS, metrics := [],
            notes := "Upscale " ++ toString upscale_factor ++ "x completed." }
  | _ =>
      .ok (validate_extraction files output_path source_path
        [("min_nonwhite", mkRat 1 100), ("max_nonwhite", mkRat 8 10)])

/-- Python 3 round(num / den) on a nonnegative fraction: round half to
even. -/
def pyRound (num den : Nat) : Nat :=
  let q := num / den
  let r := num % den
  if 2 * r < den then q
  else if den < 2 * r then q + 1
  else if q % 2 = 0 then q else q + 1

/-- Result of the execution phase of run_step (the try block, runner.py
lines 92-544), carrying the in-memory job/step exactly as mutated up to the
point of return or raise, for the except/finally handling. -/
structure BodyOut where
  st : St
  job : Job
  step : Step
  output_asset : Option Asset := none
  output_path : Option String := none
  validation : Option ValidationResult := none
  prompt_full : Option String := none
  input_asset_path : Option String := none
  error : Option String := none

/-- runner.py lines 378-544: the tail of the try block shared by every step
kind — no-output check, REMOVE white-background flattening, saving the
asset when the branch did not already save one, REFRAME 16:9 size
enforcement, step bookkeeping, validation dispatch, status and actions,
clean-plate propagation, save and events. -/
def after_generation (env : Env) (st : St) (job : Job) (step : Step)
    (custom_prompt : Option String) (run_id prompt : String)
    (output_img : Option Img) (output_path : Option String)
    (output_asset : Option Asset) (upscale_factor : Int)
    (source_path : Option String) (input_asset_path : Option String) :
    BodyOut :=
  if output_img = none ∧ output_path = none then
    { st := st, job := job, step := step, prompt_full := some prompt,
      input_asset_path := input_asset_path,
      error := some "Service returned no output" }
  else
    let output_img :=
      match output_img with
      | some img =>
          if step.type = StepType.REMOVE ∧ img.has_alpha then
            some { env.flatten_white img with has_alpha := false }
          else some img
      | none => none
    let saved :=
      match output_asset with
      | some a => some (a, output_path, job, st)
      | none =>
          match output_img with
          | none => none
          | some img =>
              let asset_kind :=
                if step.type = StepType.EXTRACT then AssetKind.LAYER
                else if step.type = StepType.EDIT then AssetKind.GENERATION
                else AssetKind.PLATE
              let asset_kind :=
                if step.type = StepType.BG_REMOVE then AssetKind.BG_REMOVED
                else asset_kind
              let kind_label :=
                if pyTruthy custom_prompt then "retry"
                else stepTypeLabel step.type
              let subdir :=
                if asset_kind = AssetKind.BG_REMOVED then "derived"
                else "generations"
              let (a, job, st) :=
                save_image st job.id step.id run_id kind_label img
                  asset_kind job subdir
              let (p, st) := get_asset_path st job.id (some a.id)
              some (a, p, job, st)
    match saved with
    | none =>
        -- save_image on a None image: the PIL save call raises (unreachable
        -- given the branch structure above, every path with no pre-saved
        -- asset carries an output image).
        { st := st, job := job, step := step, prompt_full := some prompt,
          input_asset_path := input_asset_path,
          error := some "cannot save empty output" }
    | some (output_asset, output_path, job, st) =>
    -- REFRAME 16:9 enforcement, lines 418-433
    let st :=
      if step.type = StepType.REFRAME then
        match output_path with
        | some p =>
            match assocFind st.files p with
            | some img =>
                let width := img.width
                let height := img.height
                let target_w := width
                let target_h := pyRound (width * 9) 16
                let (target_w, target_h) :=
                  if height < target_h then (pyRound (height * 16) 9, height)
                  else (target_w, target_h)
                if ¬ (target_w = width ∧ target_h = height) then
                  let reframed :=
                    { env.reframe_fit img target_w target_h with
                      width := target_w, height := target_h }
                  { st with files := assocSet st.files p reframed }
                else st
            | none => st
        | none => st
      else st
    -- step bookkeeping, lines 438-442
    let step :=
      { step with
        output_asset_id := some output_asset.id
        outputs_history := step.outputs_history ++ [output_asset.id]
        last_run_id := some run_id
        last_prompt_used := some prompt }
    let job := updStep job step
    -- validation, lines 444-494
    let rules := validation_rules_for job step
    match dispatch_validation st.files step.type (optStr output_path)
        (optStr source_path) rules upscale_factor with
    | .error msg =>
        { st := st, job := job, step := step,
          output_asset := some output_asset, output_path := output_path,
          prompt_full := some prompt, input_asset_path := input_asset_path,
          error := some msg }
    | .ok validation =>
    let step := { step with
                  validation := some validation
                  status := validation.status }
    -- actions from status, lines 497-514
    let step :=
      if step.status = StepStatus.SUCCESS ∨ step.status = StepStatus.NEEDS_REVIEW then
        { step with actions_available :=
            if step.type = StepType.UPSCALE then [StepAction.ACCEPT]
            else [StepAction.ACCEPT, StepAction.RETRY, StepAction.BG_REMOVE, StepAction.PLATE_AND_RETRY] }
      else if step.status = StepStatus.FAILED then
        { step with actions_available :=
            if step.type = StepType.UPSCALE then [StepAction.RETRY]
            else [StepAction.RETRY, StepAction.PLATE_AND_RETRY] }
      else step
    let job := updStep job step
    let st := emit_log st job.id
      ("Step completed with status: " ++ stepStatusName step.status)
      (if step.status = StepStatus.SUCCESS then "success" else "warning")
    let st := emit_log st job.id ("Validation: " ++ validation.notes) "info"
    -- clean-plate propagation, lines 523-536
    let (job, updated_future_steps) := propagate_clean_plate job step
    let st :=
      if updated_future_steps then
        emit_log st job.id "Updated future steps to use latest clean plate." "info"
      else st
    -- save and events, lines 538-544
    let st := save_job st job
    let st := emit_step_updated st job.id step
    let st := if updated_future_steps then emit_job_updated st job.id else st
    { st := st, job := job, step := step, output_asset := some output_asset,
      output_path := output_path, validation := some validation,
      prompt_full := some prompt, input_asset_path := input_asset_path,
      error := none }

/-- runner.py lines 210-373: the EXTRACT/REMOVE/REFRAME/EDIT branch —
provider routing, the manual-mask override, mask-aware prompt construction,
and dispatch to the openai / google / vertex provider call. -/
def run_edit_family (env : Env) (st : St) (job : Job) (step : Step)
    (custom_prompt : Option String) (run_id prompt : String)
    (mask_mode : MaskMode) (mask_asset_id mask_prompt : Option String)
    (input_path : String) (source_path input_asset_path : Option String) :
    BodyOut :=
  let bail := fun (st : St) (job : Job) (step : Step) (msg : String) =>
    ({ st := st, job := job, step := step, prompt_full := some prompt,
       input_asset_path := input_asset_path, error := some msg } : BodyOut)
  let image_config := step.image_config.getD (job.metadata.image_config.getD {})
  let image_provider := image_config.provider
  let image_model := image_config.model.getD "default"
  let img_api_key := job.metadata.image_api_key
  match route_provider env image_provider image_model img_api_key with
  | .error e => bail st job step e
  | .ok chosen0 =>
  match mask_override env mask_mode img_api_key chosen0 with
  | .error e => bail st job step e
  | .ok chosen_provider =>
  let st := emit_log st job.id
    ("Using " ++ chosen_provider ++ " provider (requested: " ++
      image_provider.getD "default" ++ ")") "info"
  -- mask-aware prompt construction, lines 274-282
  let prompt :=
    if mask_mode = MaskMode.MANUAL then
      "Only modify pixels inside the mask. Do not change anything outside the mask. Preserve framing, lighting, style. No new objects/text/people/animals. " ++ prompt
    else if mask_mode = MaskMode.AUTO then
      "Only modify the specified region. Do not change anything else. Preserve framing/style. " ++ prompt
    else prompt
  let prompt :=
    match mask_prompt with
    | some mp => if mp = "" then prompt else prompt ++ "\nIntent: " ++ mp
    | none => prompt
  let bail := fun (st : St) (job : Job) (step : Step) (msg : String) =>
    ({ st := st, job := job, step := step, prompt_full := some prompt,
       input_asset_path := input_asset_path, error := some msg } : BodyOut)
  if chosen_provider = "openai" then
    -- lines 290-318
    if ¬ env.openai_available img_api_key then
      bail st job step "OpenAI image service not available"
    else
      let callRes :=
        if step.type = StepType.EXTRACT then env.openai_extract
        else env.openai_remove
      match callRes with
      | .error e => bail st job step e
      | .ok img =>
          let p := "jobs/" ++ job.id ++ "/assets/generations/openai_" ++
            run_id ++ ".png"
          let st := { st with files := assocSet st.files p img }
          after_generation env st job step custom_prompt run_id prompt
            (some img) (some p) none 2 source_path input_asset_path
  else if chosen_provider = "google" then
    -- lines 320-355
    if mask_mode = MaskMode.MANUAL then
      match mask_asset_id with
      | none => bail st job step "Manual mask requested but no mask_asset_id provided."
      | some mid =>
          match get_asset_path st job.id (some mid) with
          | (none, st) => bail st job step "Mask asset not found"
          | (some mask_path, st) =>
              match assocFind st.files input_path,
                    assocFind st.files mask_path with
              | some input_img, some mask_raw =>
                  let mask_img := env.load_mask_binary mask_raw
                  if ¬ (mask_img.width = input_img.width ∧
                        mask_img.height = input_img.height) then
                    bail st job step "Mask size does not match input size"
                  else
                    let (mask_asset, job, st) :=
                      save_mask st job.id step.id run_id mask_img job
                    let step := { step with mask_asset_id := some mask_asset.id }
                    let job := updStep job step
                    match env.gemini_edit_with_mask with
                    | .error e => bail st job step e
                    | .ok img =>
                        after_generation env st job step custom_prompt run_id
                          prompt (some img) none none 2 source_path
                          input_asset_path
              | _, _ => bail st job step "cannot open input or mask image"
    else
      match env.gemini_edit with
      | .error e => bail st job step e
      | .ok img =>
          after_generation env st job step custom_prompt run_id prompt
            (some img) none none 2 source_path input_asset_path
  else
    -- Vertex AI path, lines 356-373 (also reached for any other explicitly
    -- requested provider string)
    if ¬ env.vertex_available then
      bail st job step "Vertex AI service unexpectely unavailable"
    else
      match env.vertex_edit with
      | .error e => bail st job step e
      | .ok img =>
          let p := "jobs/" ++ job.id ++ "/assets/generations/vertex_" ++
            run_id ++ ".png"
          let st := { st with files := assocSet st.files p img }
          after_generation env st job step custom_prompt run_id prompt
            (some img) (some p) none 2 source_path input_asset_path

/-- runner.py lines 92-544: the try block of run_step — input resolution,
prompt resolution, service routing and dispatch per step type, and (through
after_generation) everything up to the success return. -/
def run_body (env : Env) (st : St) (job : Job) (step : Step)
    (custom_prompt : Option String) (run_id : String) : BodyOut :=
  let (input_path?, st) :=
    match step.input_asset_id with
    | some iid => get_asset_path st job.id (some iid)
    | none => get_asset_path st job.id job.source_image
  match input_path? with
  | none =>
      { st := st, job := job, step := step,
        error := some "Input asset not found" }
  | some input_path =>
  let (source_path, st) := get_asset_path st job.id job.source_image
  let input_asset_path := some input_path
  let prompt :=
    (pyOr custom_prompt (pyOr step.custom_prompt (some step.prompt))).getD ""
  let mask_mode := step.mask_mode
  let mask_asset_id := step.mask_asset_id
  let mask_prompt := step.mask_prompt
  let bail := fun (st : St) (msg : String) =>
    ({ st := st, job := job, step := step, prompt_full := some prompt,
       input_asset_path := input_asset_path, error := some msg } : BodyOut)
  match step.type with
  | StepType.BG_REMOVE =>
      -- lines 132-162
      if ¬ env.fal_service then
        bail st "Fal background removal service is unavailable. Install fal-client."
      else
        match env.fal_remove_bg with
        | .error e => bail st e
        | .ok img =>
            let (a, job, st) :=
              save_image st job.id step.id run_id "bg_removed" img
                AssetKind.BG_REMOVED job "derived"
            let (p, st) := get_asset_path st job.id (some a.id)
            after_generation env st job step custom_prompt run_id prompt
              (some img) p (some a) 2 source_path input_asset_path
  | StepType.UPSCALE =>
      -- lines 164-208; a non-integer factor value falls back to 2 before
      -- clamping (the int() conversion guard, lines 168-171)
      let upscale_config :=
        step.image_config.getD (job.metadata.upscale_config.getD {})
      let raw_factor := upscale_config.factor.getD 2
      let upscale_factor : Int := max 1 (min 6 raw_factor)
      let outRes : Except String Img :=
        if upscale_factor = 1 then
          match assocFind st.files input_path with
          | some img => .ok img
          | none => .error "cannot open input image"
        else if ¬ env.fal_upscale_service then
          .error "Fal upscale service is unavailable. Install fal-client."
        else env.fal_upscale upscale_factor
      match outRes with
      | .error e => bail st e
      | .ok img =>
          let (a, job, st) :=
            save_image st job.id step.id run_id
              ("upscale_" ++ toString upscale_factor ++ "x") img
              AssetKind.GENERATION job "generations"
          let (p, st) := get_asset_path st job.id (some a.id)
          after_generation env st job step custom_prompt run_id prompt
            (some img) p (some a) upscale_factor source_path input_asset_path
  | StepType.EXTRACT =>
      run_edit_family env st job step custom_prompt run_id prompt mask_mode
        mask_asset_id mask_prompt input_path source_path input_asset_path
  | StepType.REMOVE =>
      run_edit_family env st job step custom_prompt run_id prompt mask_mode
        mask_asset_id mask_prompt input_path source_path input_asset_path
  | StepType.REFRAME =>
      run_edit_family env st job step custom_prompt run_id prompt mask_mode
        mask_asset_id mask_prompt input_path source_path input_asset_path
  | StepType.EDIT =>
      run_edit_family env st job step custom_prompt run_id prompt mask_mode
        mask_asset_id mask_prompt input_path source_path input_asset_path
  | StepType.ANALYZE =>
      -- line 376: unknown step type
      bail st "Unknown step type: ANALYZE"

/-- runner.py lines 546-579: the except handler and the finally block of
run_step, applied to the outcome of the try block.  On an exception
(b.error set) the step is marked FAILED, the error message is appended to
the step's log list, the actions become RETRY / PLATE_AND_RETRY, an error
log and step.updated are emitted — and the step is RETURNED (the source
returns at line 556; it does not re-raise).  The finally block then
re-resolves the output path, writes the history record (best-effort) and
saves the job. -/
def handle_step_result (b : BodyOut) (job_id step_id run_id : String)
    (custom_prompt : Option String) : Except String Step × St :=
  -- except handler, lines 546-556
  let (job, step, st) :=
    match b.error with
    | none => (b.job, b.step, b.st)
    | some msg =>
        let step := { b.step with
          status := StepStatus.FAILED
          logs := b.step.logs ++ ["Error: " ++ msg]
          actions_available := [StepAction.RETRY, StepAction.PLATE_AND_RETRY] }
        let job := updStep b.job step
        let st := emit_log b.st job_id ("Step failed: " ++ msg) "error"
        let st := emit_step_updated st job_id step
        (job, step, st)
  -- finally, lines 557-579: write the history record and save the job
  let (output_path, st) :=
    match b.output_asset with
    | some a => get_asset_path st job_id (some a.id)
    | none => (b.output_path, st)
  let rec0 : HistoryRecord :=
    { job_id := job_id
      step_id := step_id
      run_id := run_id
      prompt_base := b.step.prompt
      prompt_custom := pyOr custom_prompt b.step.custom_prompt
      prompt_full := b.prompt_full
      input_asset_path := b.input_asset_path
      output_asset_path := output_path
      output_asset_id := b.output_asset.map (fun a => a.id)
      validation_status := b.validation.map (fun v => v.status)
      validation_notes := b.validation.map (fun v => v.notes)
      error := b.error
      finished_at := st.time }
  let st := write_history st rec0
  let st := save_job st job
  (.ok step, st)

/-- runner.py lines 27-579: run a single step.  The result is the returned
Step — note that the except handler (lines 546-556) returns the FAILED step
rather than re-raising — or an error for the two not-found ValueErrors that
are raised before the try block (lines 44-50) and do propagate. -/
def run_step (env : Env) (st : St) (job_id step_id : String)
    (custom_prompt : Option String) : Except String Step × St :=
  let (jobOpt, st) := load_job st job_id
  match jobOpt with
  | none => (.error ("Job " ++ job_id ++ " not found"), st)
  | some job =>
  match job.steps.find? (fun s => s.id == step_id) with
  | none => (.error ("Step " ++ step_id ++ " not found"), st)
  | some step =>
  let (run_id, st) := new_run_id st
  -- cancellation / pause guards, lines 55-67 (before any side effect)
  if step.status = StepStatus.CANCELLED then
    let st := emit_log st job_id
      ("Step " ++ step.name ++ " was cancelled by user.") "warning"
    (.ok step, st)
  else if job.status = JobStatus.PAUSED then
    let st := emit_log st job_id
      ("Job is paused. Skipping step " ++ step.name ++ ".") "warning"
    (.ok step, st)
  else
  -- transition to RUNNING, lines 69-73
  let step := { step with status := StepStatus.RUNNING }
  let job := updStep job step
  let st := save_job st job
  let st := emit_step_updated st job_id step
  let st := emit_log st job_id ("Starting step: " ++ step.name) "info"
  -- try / except / finally
  handle_step_result (run_body env st job step custom_prompt run_id)
    job_id step_id run_id custom_prompt

/-- runner.py lines 641-646: the except handler of run_job — mark the job
FAILED, persist, emit, and re-raise. -/
def run_job_fail (st : St) (job_id : String) (job : Job) (msg : String) :
    Except String Job × St :=
  let job := { job with status := JobStatus.FAILED }
  let st := save_job st job
  let st := emit_log st job_id ("Job failed: " ++ msg) "error"
  let st := emit_job_updated st job_id
  (.error msg, st)

/-- runner.py lines 600-639: the scheduling loop of run_job, iterating over
the snapshot of job.steps taken when the job was loaded (the Python for
loop holds the list object of the initially loaded job even though the
local job variable is re-bound to a fresh load after each step).  The job
argument carries the most recently loaded record, used by the except
handler and the DONE epilogue. -/
def run_job_loop (env : Env) (st : St) (job_id : String) (job : Job) :
    List Step → Except String Job × St
  | [] =>
      -- all steps completed, lines 633-639
      let job := { job with status := JobStatus.DONE }
      let st := save_job st job
      let st := emit_log st job_id "Job completed successfully!" "success"
      let st := emit_job_updated st job_id
      (.ok job, st)
  | s :: rest =>
      -- only QUEUED steps are considered, lines 601-603
      if s.status ≠ StepStatus.QUEUED then
        run_job_loop env st job_id job rest
      else
        -- external pause/cancellation check before the step, lines 605-610
        match load_job st job_id with
        | (some cur, st) =>
            if cur.status ≠ JobStatus.RUNNING then
              let st := emit_log st job_id
                "Job execution paused/stopped externally." "warning"
              (.ok cur, st)
            else
              match run_step env st job_id s.id none with
              | (.error msg, st) =>
                  -- a ValueError escaping run_step is caught at lines
                  -- 641-646: mark FAILED and re-raise
                  run_job_fail st job_id cur msg
              | (.ok _, st) =>
                  -- reload the job and re-find the step, lines 614-616
                  match load_job st job_id with
                  | (none, st) =>
                      -- job.steps on None raises; the except handler then
                      -- raises again on the None job, so nothing is saved
                      (.error "AttributeError: NoneType object has no attribute steps", st)
                  | (some job2, st) =>
                      match job2.steps.find? (fun x => x.id == s.id) with
                      | none =>
                          -- next() raises StopIteration, caught at 641-646
                          run_job_fail st job_id job2 "step not found after run"
                      | some s2 =>
                          if s2.status = StepStatus.NEEDS_REVIEW then
                            -- lines 619-624
                            let job2 := { job2 with status := JobStatus.PAUSED }
                            let st := save_job st job2
                            let st := emit_log st job_id
                              "Job paused - step needs review" "warning"
                            let st := emit_job_updated st job_id
                            (.ok job2, st)
                          else if s2.status = StepStatus.FAILED then
                            -- lines 626-631
                            let job2 := { job2 with status := JobStatus.FAILED }
                            let st := save_job st job2
                            let st := emit_log st job_id "Job failed" "error"
                            let st := emit_job_updated st job_id
                            (.ok job2, st)
                          else run_job_loop env st job_id job2 rest
        | (none, st) =>
            -- current_job is None: the `current_job and ...` guard is falsy,
            -- so execution proceeds into run_step, which raises the
            -- job-not-found ValueError, caught at lines 641-646 against the
            -- stale job record
            match run_step env st job_id s.id none with
            | (.error msg, st) => run_job_fail st job_id job msg
            | (.ok _, st) =>
                match load_job st job_id with
                | (none, st) =>
                    (.error "AttributeError: NoneType object has no attribute steps", st)
                | (some job2, st) =>
                    match job2.steps.find? (fun x => x.id == s.id) with
                    | none =>
                        run_job_fail st job_id job2 "step not found after run"
                    | some s2 =>
                        if s2.status = StepStatus.NEEDS_REVIEW then
                          let job2 := { job2 with status := JobStatus.PAUSED }
                          let st := save_job st job2
                          let st := emit_log st job_id
                            "Job paused - step needs review" "warning"
                          let st := emit_job_updated st job_id
                          (.ok job2, st)
                        else if s2.status = StepStatus.FAILED then
                          let job2 := { job2 with status := JobStatus.FAILED }
                          let st := save_job st job2
                          let st := emit_log st job_id "Job failed" "error"
                          let st := emit_job_updated st job_id
                          (.ok job2, st)
                        else run_job_loop env st job_id job2 rest

/-- runner.py lines 581-646: run all steps of a job sequentially. -/
def run_job (env : Env) (st : St) (job_id : String) :
    Except String Job × St :=
  let (jobOpt, st) := load_job st job_id
  match jobOpt with
  | none => (.error ("Job " ++ job_id ++ " not found"), st)
  | some job =>
      let job := { job with status := JobStatus.RUNNING }
      let st := save_job st job
      let st := emit_job_updated st job_id
      let st := emit_log st job_id "Starting job execution..." "info"
      run_job_loop env st job_id job job.steps

deriving instance DecidableEq for Except

/-! ## Concrete scenarios used in the theorems below -/

/-- A 512x512 image, half nonwhite, pure white background. -/
def imgHalf : Img where
  width := 512
  height := 512
  nonwhite_ratio := mkRat 1 2
  near_white_ratio := 0
  top_band_nonwhite := 0
  bottom_band_nonwhite := 0

/-- A 512x512 image with nonwhite_ratio 0.02 and full white purity. -/
def imgLow : Img where
  width := 512
  height := 512
  nonwhite_ratio := mkRat 1 50
  near_white_ratio := 0
  top_band_nonwhite := 0
  bottom_band_nonwhite := 0

/-- An all-white 512x512 image (nonwhite_ratio 0). -/
def imgEmpty : Img where
  width := 512
  height := 512
  nonwhite_ratio := 0
  near_white_ratio := 0
  top_band_nonwhite := 0
  bottom_band_nonwhite := 0

/-- All providers configured; every invocation returns imgHalf. -/
def envA : Env where
  fal_service := true
  fal_upscale_service := true
  vertex_available := false
  google_available := fun _ => true
  openai_available := fun _ => true
  fal_remove_bg := .ok imgHalf
  fal_upscale := fun _ => .ok imgHalf
  openai_extract := .ok imgHalf
  openai_remove := .ok imgHalf
  gemini_edit := .ok imgHalf
  gemini_edit_with_mask := .ok imgHalf
  vertex_edit := .ok imgHalf
  flatten_white := fun i => i
  reframe_fit := fun i _ _ => i
  load_mask_binary := fun i => i

/-- Like envA with the google (Gemini) service unavailable. -/
def envNoG : Env :=
  { envA with google_available := fun _ => false, vertex_available := true }

def srcAssetW : Asset where
  id := "src"
  kind := .SOURCE
  path := "jobs/j/assets/source/src.png"

/-- The previously produced clean plate (output of an earlier s0 run). -/
def plateA : Asset where
  id := "A"
  kind := .PLATE
  path := "jobs/j/assets/generations/a.png"
  step_id := some "s0"

/-- An asset a user manually selected as input for step s2. -/
def assetC : Asset where
  id := "C"
  kind := .GENERATION
  path := "jobs/j/assets/generations/c.png"

def c1s0 : Step :=
  { id := "s0", index := 0, name := "remove", type := .REMOVE,
    status := .QUEUED, output_asset_id := some "A" }
def c1s1 : Step :=
  { id := "s1", index := 1, name := "e1", type := .EXTRACT,
    status := .QUEUED, input_asset_id := some "A" }
def c1s2 : Step :=
  { id := "s2", index := 2, name := "e2", type := .EXTRACT,
    status := .QUEUED, input_asset_id := some "C" }
def c1s3 : Step :=
  { id := "s3", index := 3, name := "e3", type := .EXTRACT,
    status := .QUEUED }

/-- Re-run scenario of spec 8: step 0 is a REMOVE whose previous output A is
the recorded latest plate; s1 still points at A, s2 was manually overridden
to C, s3 is unset. -/
def c1job : Job where
  id := "j"
  status := .RUNNING
  source_image := some "src"
  steps := [c1s0, c1s1, c1s2, c1s3]
  assets := [("src", srcAssetW), ("A", plateA), ("C", assetC)]
  metadata := { latest_plate_asset_id := some "A" }

def c1st : St where
  jobs := [("j", c1job)]
  files := [("jobs/j/assets/source/src.png", imgHalf)]

/-- A job whose step has no input asset and no source image: running it
raises the input-not-found error inside the try block. -/
def c3step : Step :=
  { id := "sE", index := 0, name := "e", type := .EXTRACT, status := .QUEUED }
def c3job : Job where
  id := "j"
  status := .RUNNING
  source_image := none
  steps := [c3step]
def c3st : St := { jobs := [("j", c3job)] }

/-- A REFRAME step whose provider call succeeds. -/
def c5step : Step :=
  { id := "sR", index := 0, name := "reframe", type := .REFRAME,
    status := .QUEUED }
def c5job : Job where
  id := "j"
  status := .RUNNING
  source_image := some "src"
  steps := [c5step]
  assets := [("src", srcAssetW)]
def c5st : St where
  jobs := [("j", c5job)]
  files := [("jobs/j/assets/source/src.png", imgHalf)]

/-- An asset record owned by step sQ, which has no recorded output: the
recovery pass of load_job reattaches it and promotes sQ. -/
def recAsset : Asset where
  id := "aq"
  kind := .GENERATION
  path := "jobs/j/assets/generations/g.png"
  step_id := some "sQ"
  created_at := 5

def c7sC : Step :=
  { id := "sC", index := 0, name := "c", type := .EXTRACT,
    status := .CANCELLED }
def c7sQ : Step :=
  { id := "sQ", index := 1, name := "q", type := .EXTRACT, status := .QUEUED }

/-- Job with a CANCELLED step and a recovery-eligible sibling step. -/
def c7job : Job where
  id := "j"
  status := .RUNNING
  source_image := some "src"
  steps := [c7sC, c7sQ]
  assets := [("src", srcAssetW), ("aq", recAsset)]
def c7st : St where
  jobs := [("j", c7job)]
  files := [("jobs/j/assets/source/src.png", imgHalf)]

/-- Job with a CANCELLED step and nothing for the recovery pass to do. -/
def c7wjob : Job where
  id := "j"
  status := .RUNNING
  source_image := some "src"
  steps := [c7sC]
  assets := [("src", srcAssetW)]
def c7wst : St where
  jobs := [("j", c7wjob)]
  files := [("jobs/j/assets/source/src.png", imgHalf)]

/-- An asset record whose file does not exist on disk. -/
def ghostAsset : Asset where
  id := "a"
  kind := .GENERATION
  path := "jobs/j/assets/generations/ghost.png"

def c8job : Job where
  id := "j"
  steps := []
  assets := [("a", ghostAsset)]

/-- Job exists, asset record exists, file missing. -/
def c8st : St := { jobs := [("j", c8job)] }

/-- No job record at all. -/
def c8stM : St := {}

/-- One subscriber registered for job j. -/
def c9ps : PubSubState := subscribe_register [] "j"

def c4filesOk : List (String × Img) :=
  [("out.png", imgLow), ("src.png", imgHalf)]
def c4filesEmpty : List (String × Img) :=
  [("out.png", imgEmpty), ("src.png", imgHalf)]

/-- A step that is not QUEUED (already succeeded). -/
def c6sDone : Step :=
  { id := "sD", index := 0, name := "d", type := .EXTRACT,
    status := .SUCCESS }

/-- A finished REMOVE step (output B, SUCCESS) as the propagation sees it. -/
def c1wStep : Step :=
  { id := "s0", index := 0, name := "remove", type := .REMOVE,
    status := .SUCCESS, output_asset_id := some "B" }

/-! ## Helper lemmas -/

theorem assocFind_assocSet {α : Type} (l : List (String × α)) (k : String)
    (v : α) : assocFind (assocSet l k v) k = some v := by
  induction l with
  | nil => simp [assocSet, assocFind]
  | cons hd tl ih =>
      by_cases h : hd.1 = k
      · simp [assocSet, assocFind, h]
      · simp [assocSet, assocFind, h, ih]

theorem foldl_preserve {α β γ : Type} (f : β → α → β) (g : β → γ)
    (h : ∀ b a, g (f b a) = g b) :
    ∀ (l : List α) (b : β), g (l.foldl f b) = g b := by
  intro l
  induction l with
  | nil => intro b; rfl
  | cons hd tl ih => intro b; rw [List.foldl_cons, ih, h]

theorem import_step_events (ex : List String) (acc : Job × Bool × St)
    (kv : String × Img) : (import_step ex acc kv).2.2.events = acc.2.2.events := by
  obtain ⟨j, a, s⟩ := acc
  simp only [import_step]
  split <;> rfl

theorem import_step_history (ex : List String) (acc : Job × Bool × St)
    (kv : String × Img) :
    (import_step ex acc kv).2.2.history = acc.2.2.history := by
  obtain ⟨j, a, s⟩ := acc
  simp only [import_step]
  split <;> rfl

theorem import_step_time (ex : List String) (acc : Job × Bool × St)
    (kv : String × Img) : (import_step ex acc kv).2.2.time = acc.2.2.time := by
  obtain ⟨j, a, s⟩ := acc
  simp only [import_step]
  split <;> rfl

theorem import_missing_assets_events (st : St) (job : Job) :
    (import_missing_assets st job).2.2.events = st.events := by
  unfold import_missing_assets
  exact foldl_preserve _ (fun (b : Job × Bool × St) => b.2.2.events)
    (import_step_events _) _ _

theorem import_missing_assets_history (st : St) (job : Job) :
    (import_missing_assets st job).2.2.history = st.history := by
  unfold import_missing_assets
  exact foldl_preserve _ (fun (b : Job × Bool × St) => b.2.2.history)
    (import_step_history _) _ _

theorem import_missing_assets_time (st : St) (job : Job) :
    (import_missing_assets st job).2.2.time = st.time := by
  unfold import_missing_assets
  exact foldl_preserve _ (fun (b : Job × Bool × St) => b.2.2.time)
    (import_step_time _) _ _

theorem recover_missing_outputs_events (st : St) (job : Job) :
    (recover_missing_outputs st job).2.events = st.events := by
  have h := import_missing_assets_events st job
  rcases him : import_missing_assets st job with ⟨j2, a2, s2⟩
  rw [him] at h
  simp only [Prod.snd] at h
  simp only [recover_missing_outputs, him]
  split <;> simp [save_job, h]

theorem recover_missing_outputs_history (st : St) (job : Job) :
    (recover_missing_outputs st job).2.history = st.history := by
  have h := import_missing_assets_history st job
  rcases him : import_missing_assets st job with ⟨j2, a2, s2⟩
  rw [him] at h
  simp only [Prod.snd] at h
  simp only [recover_missing_outputs, him]
  split <;> simp [save_job, h]

theorem recover_missing_outputs_time (st : St) (job : Job) :
    (recover_missing_outputs st job).2.time = st.time := by
  have h := import_missing_assets_time st job
  rcases him : import_missing_assets st job with ⟨j2, a2, s2⟩
  rw [him] at h
  simp only [Prod.snd] at h
  simp only [recover_missing_outputs, him]
  split <;> simp [save_job, h]

theorem load_job_events (st : St) (job_id : String) :
    (load_job st job_id).2.events = st.events := by
  unfold load_job
  rcases h1 : assocFind st.jobs job_id with _ | j
  · rcases h2 : assocFind st.legacy_jobs job_id with _ | j
    · simp
    · rcases hr : recover_missing_outputs st j with ⟨j2, s2⟩
      have := recover_missing_outputs_events st j
      rw [hr] at this
      simp only [Prod.snd] at this
      simp [hr, this]
  · rcases hr : recover_missing_outputs st j with ⟨j2, s2⟩
    have := recover_missing_outputs_events st j
    rw [hr] at this
    simp only [Prod.snd] at this
    simp [hr, this]

theorem load_job_history (st : St) (job_id : String) :
    (load_job st job_id).2.history = st.history := by
  unfold load_job
  rcases h1 : assocFind st.jobs job_id with _ | j
  · rcases h2 : assocFind st.legacy_jobs job_id with _ | j
    · simp
    · rcases hr : recover_missing_outputs st j with ⟨j2, s2⟩
      have := recover_missing_outputs_history st j
      rw [hr] at this
      simp only [Prod.snd] at this
      simp [hr, this]
  · rcases hr : recover_missing_outputs st j with ⟨j2, s2⟩
    have := recover_missing_outputs_history st j
    rw [hr] at this
    simp only [Prod.snd] at this
    simp [hr, this]

theorem load_job_time (st : St) (job_id : String) :
    (load_job st job_id).2.time = st.time := by
  unfold load_job
  rcases h1 : assocFind st.jobs job_id with _ | j
  · rcases h2 : assocFind st.legacy_jobs job_id with _ | j
    · simp
    · rcases hr : recover_missing_outputs st j with ⟨j2, s2⟩
      have := recover_missing_outputs_time st j
      rw [hr] at this
      simp only [Prod.snd] at this
      simp [hr, this]
  · rcases hr : recover_missing_outputs st j with ⟨j2, s2⟩
    have := recover_missing_outputs_time st j
    rw [hr] at this
    simp only [Prod.snd] at this
    simp [hr, this]

theorem get_asset_path_state (st : St) (job_id : String)
    (asset_id : Option String) :
    (get_asset_path st job_id asset_id).2 = (load_job st job_id).2 := by
  unfold get_asset_path
  rcases h : load_job st job_id with ⟨jobOpt, st1⟩
  rcases jobOpt with _ | job
  · rcases asset_id with _ | aid <;> simp
  · rcases asset_id with _ | aid
    · simp
    · rcases h2 : assocFind job.assets aid with _ | a <;> simp [h2]

theorem get_asset_path_events (st : St) (job_id : String)
    (asset_id : Option String) :
    (get_asset_path st job_id asset_id).2.events = st.events := by
  rw [get_asset_path_state, load_job_events]

theorem get_asset_path_history (st : St) (job_id : String)
    (asset_id : Option String) :
    (get_asset_path st job_id asset_id).2.history = st.history := by
  rw [get_asset_path_state, load_job_history]

theorem get_asset_path_time (st : St) (job_id : String)
    (asset_id : Option String) :
    (get_asset_path st job_id asset_id).2.time = st.time := by
  rw [get_asset_path_state, load_job_time]

/-! ## Claim theorems -/

/-- C4: validate_extraction decision — when the output and source dimensions
match and measurement succeeds (both paths open), the result is FAILED with
a "too empty" note when nonwhite_ratio < min_nonwhite (default 0.01),
otherwise NEEDS_REVIEW when nonwhite_ratio > max_nonwhite (default 0.5),
otherwise NEEDS_REVIEW when white_purity < 0.95, and otherwise SUCCESS. -/
theorem C4_validate_extraction_decision
    (files : List (String × Img)) (op sp : String) (img src : Img)
    (rules : List (String × Rat))
    (hop : assocFind files op = some img)
    (hsp : assocFind files sp = some src)
    (hw : img.width = src.width) (hh : img.height = src.height) :
    (img.nonwhite_ratio < rulesGet rules "min_nonwhite" (mkRat 1 100) →
       (validate_extraction files op sp rules).status = StepStatus.FAILED ∧
       (validate_extraction files op sp rules).notes =
         "Output too empty (" ++ pct img.nonwhite_ratio ++
           " content, expected >" ++
           pct (rulesGet rules "min_nonwhite" (mkRat 1 100)) ++ ")") ∧
    (¬ img.nonwhite_ratio < rulesGet rules "min_nonwhite" (mkRat 1 100) →
     img.nonwhite_ratio > rulesGet rules "max_nonwhite" (mkRat 1 2) →
       (validate_extraction files op sp rules).status =
         StepStatus.NEEDS_REVIEW) ∧
    (¬ img.nonwhite_ratio < rulesGet rules "min_nonwhite" (mkRat 1 100) →
     ¬ img.nonwhite_ratio > rulesGet rules "max_nonwhite" (mkRat 1 2) →
     ratSub 1 img.near_white_ratio < mkRat 95 100 →
       (validate_extraction files op sp rules).status =
         StepStatus.NEEDS_REVIEW) ∧
    (¬ img.nonwhite_ratio < rulesGet rules "min_nonwhite" (mkRat 1 100) →
     ¬ img.nonwhite_ratio > rulesGet rules "max_nonwhite" (mkRat 1 2) →
     ¬ ratSub 1 img.near_white_ratio < mkRat 95 100 →
       (validate_extraction files op sp rules).status =
         StepStatus.SUCCESS) := by
  refine ⟨?_, ?_, ?_, ?_⟩
  · intro h1
    simp only [validate_extraction, hop, hsp, measure_extraction]
    rw [if_neg (not_not_intro ⟨hw, hh⟩), if_pos h1]
    exact ⟨rfl, rfl⟩
  · intro h1 h2
    simp only [validate_extraction, hop, hsp, measure_extraction]
    rw [if_neg (not_not_intro ⟨hw, hh⟩), if_neg h1, if_pos h2]
  · intro h1 h2 h3
    simp only [validate_extraction, hop, hsp, measure_extraction]
    rw [if_neg (not_not_intro ⟨hw, hh⟩), if_neg h1, if_neg h2, if_pos h3]
  · intro h1 h2 h3
    simp only [validate_extraction, hop, hsp, measure_extraction]
    rw [if_neg (not_not_intro ⟨hw, hh⟩), if_neg h1, if_neg h2, if_neg h3]

/-- C4 witness: an all-white output is FAILED with a "too empty" note, and
an output with nonwhite_ratio 0.02 and full purity under default rules is
SUCCESS. -/
theorem C4_validate_extraction_decision_witness :
    ((validate_extraction c4filesEmpty "out.png" "src.png" []).status =
       StepStatus.FAILED ∧
     strContains
       (validate_extraction c4filesEmpty "out.png" "src.png" []).notes
       "too empty" = true) ∧
    (validate_extraction c4filesOk "out.png" "src.png" []).status =
      StepStatus.SUCCESS := by
  refine ⟨⟨?_, ?_⟩, ?_⟩
  · exact ((C4_validate_extraction_decision c4filesEmpty "out.png" "src.png"
      imgEmpty imgHalf [] (by decide) (by decide) (by decide) (by decide)).1
      (by decide)).1
  · decide
  · exact (C4_validate_extraction_decision c4filesOk "out.png" "src.png"
      imgLow imgHalf [] (by decide) (by decide) (by decide)
      (by decide)).2.2.2 (by decide) (by decide) (by decide)

/-- C1: clean-plate propagation.  The propagation pass of run_step
(runner.py lines 523-536, the propagate_clean_plate call) runs exactly when
the executed step is a REMOVE with an output asset and final status SUCCESS
or NEEDS_REVIEW; it then repoints every strictly-later-indexed step whose
input is unset or equals the previously recorded latest-plate id to the new
output, leaves every other step unchanged, and updates the latest-plate
pointer.  The last conjunct checks the full runStep on the re-run scenario
of spec section 8: s1 (input = previous pointer A) and s3 (input unset) are
repointed to the new output uuid1, the manually overridden s2 (input C)
is untouched, and the pointer becomes uuid1. -/
theorem C1_clean_plate_propagation (job : Job) (step : Step)
    (htype : step.type = StepType.REMOVE)
    (hout : step.output_asset_id.isSome = true)
    (hstat : step.status = StepStatus.SUCCESS ∨
             step.status = StepStatus.NEEDS_REVIEW) :
    ((propagate_clean_plate job step).1.metadata.latest_plate_asset_id =
       step.output_asset_id) ∧
    (∀ (i : Nat) (fs : Step), job.steps[i]? = some fs →
      (step.index < fs.index →
        ((fs.input_asset_id = none ∨
          fs.input_asset_id = job.metadata.latest_plate_asset_id) →
           (propagate_clean_plate job step).1.steps[i]? =
             some { fs with input_asset_id := step.output_asset_id }) ∧
        (¬ (fs.input_asset_id = none ∨
            fs.input_asset_id = job.metadata.latest_plate_asset_id) →
           (propagate_clean_plate job step).1.steps[i]? = some fs)) ∧
      (¬ step.index < fs.index →
        (propagate_clean_plate job step).1.steps[i]? = some fs)) ∧
    (((run_step envA c1st "j" "s0" none).2.jobs.map
        (fun kv => kv.2.steps.map (fun s => s.input_asset_id))) =
       [[none, some "uuid1", some "C", some "uuid1"]] ∧
     ((run_step envA c1st "j" "s0" none).2.jobs.map
        (fun kv => kv.2.metadata.latest_plate_asset_id)) = [some "uuid1"]) := by
  have hcond : step.type = StepType.REMOVE ∧ step.output_asset_id.isSome ∧
      (step.status = StepStatus.SUCCESS ∨
       step.status = StepStatus.NEEDS_REVIEW) := ⟨htype, hout, hstat⟩
  refine ⟨?_, ?_, by decide, by decide⟩
  · unfold propagate_clean_plate
    rw [if_pos hcond]
  · intro i fs hfs
    unfold propagate_clean_plate
    rw [if_pos hcond]
    simp only [List.getElem?_map, hfs, Option.map_some']
    refine ⟨fun hlt => ⟨fun hc => ?_, fun hc => ?_⟩, fun hge => ?_⟩
    · rw [if_neg (by omega), if_pos hc]
    · rw [if_neg (by omega), if_neg hc]
    · rw [if_pos (by omega)]

/-- C1 witness: propagation applied to the concrete re-run job with a
finished REMOVE step whose new output is B. -/
theorem C1_clean_plate_propagation_witness :
    (propagate_clean_plate c1job c1wStep).1.metadata.latest_plate_asset_id =
      some "B" ∧
    (propagate_clean_plate c1job c1wStep).1.steps[1]? =
      some { c1s1 with input_asset_id := some "B" } ∧
    (propagate_clean_plate c1job c1wStep).1.steps[2]? = some c1s2 := by
  have h := C1_clean_plate_propagation c1job c1wStep rfl rfl (Or.inl rfl)
  refine ⟨h.1, ?_, ?_⟩
  · exact ((h.2.1 1 c1s1 (by decide)).1 (by decide)).1 (by decide)
  · exact ((h.2.1 2 c1s2 (by decide)).1 (by decide)).2 (by decide)

/-- C2: manual-mask provider override.  For the EXTRACT/REMOVE/REFRAME/EDIT
branch, after routing chooses a provider, the override block (runner.py
lines 263-270, mask_override) applies when mask_mode is MANUAL: if google —
the only provider invoked mask-aware (edit_image_with_mask, line 343) — is
available it is force-selected, otherwise the step fails with the explicit
configuration error; no MANUAL-mask run ever proceeds with a provider other
than google, so the mask is never silently dropped. -/
theorem C2_manual_mask_override (env : Env) (key : Option String)
    (chosen : String) :
    (env.google_available key = true →
       mask_override env MaskMode.MANUAL key chosen = .ok "google") ∧
    (env.google_available key = false → chosen ≠ "google" →
       mask_override env MaskMode.MANUAL key chosen =
         .error "Manual mask requires Google (Gemini) image service, but it is unavailable.") ∧
    (∀ p, mask_override env MaskMode.MANUAL key chosen = .ok p →
       p = "google") := by
  refine ⟨?_, ?_, ?_⟩
  · intro hg
    unfold mask_override
    by_cases hc : chosen = "google"
    · rw [if_neg (by simp [hc]), hc]
    · rw [if_pos ⟨rfl, rfl, hc⟩, if_pos hg]
  · intro hg hc
    unfold mask_override
    rw [if_pos ⟨rfl, rfl, hc⟩, if_neg (by simp [hg])]
  · intro p hp
    unfold mask_override at hp
    by_cases hc : chosen = "google"
    · rw [if_neg (by simp [hc])] at hp
      cases hp
      exact hc
    · rw [if_pos ⟨rfl, rfl, hc⟩] at hp
      by_cases hg : env.google_available key = true
      · rw [if_pos hg] at hp
        cases hp
        rfl
      · rw [if_neg (by simpa using hg)] at hp
        cases hp

/-- C2 witness: with google available a vertex-chosen MANUAL-mask step is
force-switched to google; with google unavailable it fails with the
configuration error. -/
theorem C2_manual_mask_override_witness :
    mask_override envA MaskMode.MANUAL none "vertex" = .ok "google" ∧
    mask_override envNoG MaskMode.MANUAL none "vertex" =
      .error "Manual mask requires Google (Gemini) image service, but it is unavailable." := by
  exact ⟨(C2_manual_mask_override envA none "vertex").1 rfl,
    (C2_manual_mask_override envNoG none "vertex").2.1 rfl (by decide)⟩

/-- C3 (amended): exception contract of run_step.  For every exception
during the execution phase (the try block, lines 92-544: b.error set), the
except/finally boundary (handle_step_result, lines 546-579) marks the step
FAILED, appends the error message to the step's log list, sets
actions_available to RETRY and PLATE_AND_RETRY, emits an error log event
and a step.updated event, records the error in the history record and saves
the job — and then RETURNS the failed step to the caller (line 556) instead
of re-raising the exception. -/
theorem C3_run_step_exception_contract (b : BodyOut)
    (job_id step_id run_id : String) (cp : Option String) (msg : String)
    (hb : b.error = some msg) (hid : b.job.id = job_id) :
    (handle_step_result b job_id step_id run_id cp).1 =
      .ok { b.step with
            status := StepStatus.FAILED
            logs := b.step.logs ++ ["Error: " ++ msg]
            actions_available :=
              [StepAction.RETRY, StepAction.PLATE_AND_RETRY] } ∧
    (handle_step_result b job_id step_id run_id cp).2.events =
      b.st.events ++
        [Ev.log job_id ("Step failed: " ++ msg) "error",
         Ev.stepUpdated job_id
           { b.step with
             status := StepStatus.FAILED
             logs := b.step.logs ++ ["Error: " ++ msg]
             actions_available :=
               [StepAction.RETRY, StepAction.PLATE_AND_RETRY] }] ∧
    (handle_step_result b job_id step_id run_id cp).2.history.map
        (fun h => h.error) =
      b.st.history.map (fun h => h.error) ++ [some msg] ∧
    assocFind (handle_step_result b job_id step_id run_id cp).2.jobs job_id =
      some { updStep b.job
               { b.step with
                 status := StepStatus.FAILED
                 logs := b.step.logs ++ ["Error: " ++ msg]
                 actions_available :=
                   [StepAction.RETRY, StepAction.PLATE_AND_RETRY] } with
             updated_at := b.st.time } := by
  have hkey : ∀ s : Step, (updStep b.job s).id = job_id := fun _ => hid
  unfold handle_step_result
  simp only [hb]
  rcases hoa : b.output_asset with _ | a
  · refine ⟨by trivial, ?_, ?_, ?_⟩
    · simp [save_job, write_history, emit_log, emit_step_updated]
    · simp [save_job, write_history, emit_log, emit_step_updated, hb]
    · simp only [save_job, write_history]
      rw [hkey]
      exact assocFind_assocSet _ _ _
  · refine ⟨by trivial, ?_, ?_, ?_⟩
    · simp [save_job, write_history, get_asset_path_events,
        emit_log, emit_step_updated]
    · simp [save_job, write_history, get_asset_path_history,
        emit_log, emit_step_updated, hb]
    · simp only [save_job, write_history]
      rw [hkey, get_asset_path_time]
      exact assocFind_assocSet _ _ _

/-- C3 witness: the exception contract applied to a concrete try-block
outcome carrying the error "boom". -/
theorem C3_run_step_exception_contract_witness :
    (handle_step_result
      { st := c3st, job := c3job, step := c3step, error := some "boom" }
      "j" "sE" "run0" none).1 =
      .ok { c3step with
            status := StepStatus.FAILED
            logs := ["Error: boom"]
            actions_available :=
              [StepAction.RETRY, StepAction.PLATE_AND_RETRY] } := by
  have h := C3_run_step_exception_contract
    { st := c3st, job := c3job, step := c3step, error := some "boom" }
    "j" "sE" "run0" none "boom" rfl rfl
  exact h.1

/-- C3 counterexample: a step whose input resolution raises inside the try
block of run_step (no input asset and no source image).  The step is marked
FAILED with the error logged and the retry actions set, but run_step
RETURNS the step as an ordinary value — the exception is not re-raised to
the caller, contradicting the claim's final clause. -/
theorem C3_counterexample :
    (run_step envA c3st "j" "sE" none).1 =
      .ok { c3step with
            status := StepStatus.FAILED
            logs := ["Error: Input asset not found"]
            actions_available :=
              [StepAction.RETRY, StepAction.PLATE_AND_RETRY] } := by
  decide

/-- C5 (code bug): reframe validation is called but does not exist.  For a
REFRAME step whose provider call succeeds and whose output is saved, the
validation dispatch of run_step (runner.py line 466) invokes
validator.validate_reframe — an attribute that validators.py never defines
(the Validator class has only validate_extraction and validate_plate), so
the attribute access raises and the except handler marks the step FAILED
with the AttributeError in its log, regardless of the produced image; the
step status is not set from any reframe validation outcome. -/
theorem C5_reframe_validation_missing :
    (run_step envA c5st "j" "sR" none).1 =
      .ok { c5step with
            status := StepStatus.FAILED
            logs := ["Error: AttributeError: Validator object has no attribute validate_reframe"]
            actions_available :=
              [StepAction.RETRY, StepAction.PLATE_AND_RETRY]
            output_asset_id := some "uuid1"
            outputs_history := ["uuid1"]
            last_run_id := some "run0"
            last_prompt_used := some "" } := by
  decide

/-- C7 (amended): cancellation/pause guard.  PROVIDED the recovery pass run
by the job load at entry changes nothing, a run_step call on a step whose
status is CANCELLED (and likewise when the job is PAUSED) returns the step
unchanged with no persisted-state change, no status transition and no
history record — the only effect is one warning log event (and the run-id
draw, modelled by the fresh counter).  Without that proviso the claim fails:
the entry load itself can rewrite the job (see the counterexample). -/
theorem C7_cancellation_guard (env : Env) (st : St) (job_id step_id : String)
    (cp : Option String) (job : Job) (step : Step)
    (hjob : assocFind st.jobs job_id = some job)
    (hrec : recover_missing_outputs st job = (job, st))
    (hfind : job.steps.find? (fun s => s.id == step_id) = some step) :
    (step.status = StepStatus.CANCELLED →
      run_step env st job_id step_id cp =
        (.ok step,
         { st with
           events := st.events ++
             [Ev.log job_id ("Step " ++ step.name ++ " was cancelled by user.")
               "warning"]
           fresh := st.fresh + 1 })) ∧
    (step.status ≠ StepStatus.CANCELLED → job.status = JobStatus.PAUSED →
      run_step env st job_id step_id cp =
        (.ok step,
         { st with
           events := st.events ++
             [Ev.log job_id ("Job is paused. Skipping step " ++ step.name ++ ".")
               "warning"]
           fresh := st.fresh + 1 })) := by
  constructor
  · intro h1
    simp only [run_step, load_job, hjob, hrec, hfind, new_run_id]
    rw [if_pos h1]
    simp [emit_log]
  · intro h1 h2
    simp only [run_step, load_job, hjob, hrec, hfind, new_run_id]
    rw [if_neg h1, if_pos h2]
    simp [emit_log]

/-- C7 witness: the guard theorem applied to a concrete CANCELLED step in a
job where the recovery pass has nothing to do. -/
theorem C7_cancellation_guard_witness :
    run_step envA c7wst "j" "sC" none =
      (.ok c7sC,
       { c7wst with
         events := [Ev.log "j" "Step c was cancelled by user." "warning"]
         fresh := 1 }) := by
  have h := C7_cancellation_guard envA c7wst "j" "sC" none c7wjob c7sC
    (by decide) (by decide) (by decide)
  exact h.1 rfl

/-- C7 counterexample: run_step on the CANCELLED step sC of a job whose
sibling step sQ owns an asset record but has no recorded output.  The call
returns sC with only the warning log, but the job load at entry ran the
recovery pass, which rewrote the persisted record and promoted sQ from
QUEUED to NEEDS_REVIEW — persisted state changed and a status transitioned,
contradicting the claim as stated. -/
theorem C7_counterexample :
    (run_step envA c7st "j" "sC" none).1 = .ok c7sC ∧
    ((run_step envA c7st "j" "sC" none).2.jobs.map
      (fun kv => kv.2.steps.map (fun s => (s.status, s.output_asset_id)))) =
      [[(StepStatus.CANCELLED, none), (StepStatus.NEEDS_REVIEW, some "aq")]] ∧
    (c7st.jobs.map
      (fun kv => kv.2.steps.map (fun s => (s.status, s.output_asset_id)))) =
      [[(StepStatus.CANCELLED, none), (StepStatus.QUEUED, none)]] := by
  refine ⟨by decide, by decide, by decide⟩

/-- C8 (amended): storage.get_asset_path returns the SAME not-found signal
(None) whether the Job record is missing or the job exists but no candidate
path of the asset exists on disk; the two failure cases are therefore not
distinguishable from the returned value. -/
theorem C8_asset_resolution_signal (st st1 : St) (jid aid : String)
    (job : Job) (asset : Asset) :
    (assocFind st.jobs jid = none → assocFind st.legacy_jobs jid = none →
       (get_asset_path st jid (some aid)).1 = none) ∧
    (load_job st jid = (some job, st1) →
     assocFind job.assets aid = some asset →
     (∀ c ∈ candidate_paths asset.path, assocFind st1.files c = none) →
       (get_asset_path st jid (some aid)).1 = none) := by
  constructor
  · intro h1 h2
    simp only [get_asset_path, load_job, h1, h2]
  · intro hload hasset hnone
    simp only [get_asset_path, hload, hasset]
    exact List.find?_eq_none.mpr (fun c hc => by simp [hnone c hc])

/-- C8 witness: the two indistinguishable failure cases at concrete states —
job record missing, and job present with the asset file gone. -/
theorem C8_asset_resolution_signal_witness :
    (get_asset_path c8stM "j" (some "a")).1 = none ∧
    (get_asset_path c8st "j" (some "a")).1 = none := by
  exact ⟨(C8_asset_resolution_signal c8stM c8stM "j" "a" c8job
      ghostAsset).1 (by decide) (by decide),
    (C8_asset_resolution_signal c8st c8st "j" "a" c8job ghostAsset).2
      (by decide) (by decide) (by decide)⟩

/-- C8 counterexample: a missing Job record and a merely-unresolvable asset
path produce the identical result value none, so the caller receives no
distinguishable signal — the claim as stated is false. -/
theorem C8_counterexample :
    (get_asset_path c8stM "j" (some "a")).1 = none ∧
    (get_asset_path c8st "j" (some "a")).1 = none ∧
    assocFind c8stM.jobs "j" = none ∧
    assocFind c8st.jobs "j" = some c8job ∧
    assocFind c8job.assets "a" = some ghostAsset := by
  refine ⟨by decide, by decide, by decide, by decide, by decide⟩

/-- C9: pubsub delivery is complete and non-blocking.  subscribe registers a
queue created with no capacity bound (asyncio.Queue() with no maxsize,
pubsub.py line 16); when all registered queues are unbounded — which holds
for every queue subscribe ever creates — emit enqueues the SSE-formatted
event to every queue for the job without the at-capacity drop branch ever
firing; and emit is a no-op when nobody is subscribed for the job. -/
theorem C9_pubsub_delivery (ps : PubSubState) (jid et data : String)
    (qs : List PQueue) :
    (assocFind (subscribe_register ps jid) jid =
       some ((assocFind ps jid).getD [] ++
         [{ capacity := none, items := [] }])) ∧
    (assocFind ps jid = some qs → (∀ q ∈ qs, q.capacity = none) →
       pubsub_emit ps jid et data =
         assocSet ps jid (qs.map (fun q =>
           { q with items := q.items ++ [sse_format et data] }))) ∧
    (assocFind ps jid = none → pubsub_emit ps jid et data = ps) := by
  refine ⟨?_, ?_, ?_⟩
  · unfold subscribe_register
    rcases h : assocFind ps jid with _ | qs0 <;>
      simp [h, assocFind_assocSet]
  · intro hsub hcap
    simp only [pubsub_emit, hsub]
    congr 1
    exact List.map_congr_left (fun q hq => by
      simp [pqueue_put, hcap q hq])
  · intro hnone
    simp only [pubsub_emit, hnone]

/-- C9 witness: one freshly subscribed (unbounded) queue receives the
SSE-formatted event. -/
theorem C9_pubsub_delivery_witness :
    pubsub_emit c9ps "j" "log" "d" =
      assocSet c9ps "j" [{ capacity := none,
                           items := [sse_format "log" "d"] }] := by
  exact (C9_pubsub_delivery c9ps "j" "log" "d"
    [{ capacity := none, items := [] }]).2.1 (by decide) (by decide)

/-- C10: asset path resolution is not read-only.  get_asset_path reloads the
job, so its storage side effects are exactly those of load_job — which runs
the recovery pass and saves the job whenever that pass changes anything; at
the concrete state below a mere path lookup rewrites the persisted record
and promotes step sQ from QUEUED to NEEDS_REVIEW. -/
theorem C10_get_asset_path_not_readonly (st : St) (jid : String)
    (aid : Option String) :
    ((get_asset_path st jid aid).2 = (load_job st jid).2) ∧
    ((get_asset_path c7st "j" (some "src")).2.jobs.map
       (fun kv => kv.2.steps.map (fun s => s.status))) =
      [[StepStatus.CANCELLED, StepStatus.NEEDS_REVIEW]] ∧
    (c7st.jobs.map (fun kv => kv.2.steps.map (fun s => s.status))) =
      [[StepStatus.CANCELLED, StepStatus.QUEUED]] := by
  exact ⟨get_asset_path_state st jid aid, by decide, by decide⟩

/-- C6: run_job scheduler gates.  The scheduling loop of run_job: (1) skips
any step whose snapshot status is not QUEUED; (2) before a queued step,
reloads the job and stops immediately (returning the live job) when the
live status is no longer RUNNING; (3) after a step whose reloaded status is
NEEDS_REVIEW, sets the job PAUSED, persists, emits, and stops; (4) after a
FAILED step, sets the job FAILED, persists, emits, and stops; (5) otherwise
continues with the remaining steps; (6) when the steps are exhausted, sets
the job DONE; and (7) an exception escaping run_step (a propagated
not-found ValueError) marks the job FAILED and is re-raised. -/
theorem C6_run_job_scheduler_gates (env : Env) (st st1 st2 st3 : St)
    (job_id msg : String) (job cur job2 : Job) (s s2 s9 : Step)
    (rest : List Step) :
    (s.status ≠ StepStatus.QUEUED →
       run_job_loop env st job_id job (s :: rest) =
         run_job_loop env st job_id job rest) ∧
    (s.status = StepStatus.QUEUED →
     load_job st job_id = (some cur, st1) →
     cur.status ≠ JobStatus.RUNNING →
       run_job_loop env st job_id job (s :: rest) =
         (.ok cur,
          emit_log st1 job_id "Job execution paused/stopped externally."
            "warning")) ∧
    (s.status = StepStatus.QUEUED →
     load_job st job_id = (some cur, st1) →
     cur.status = JobStatus.RUNNING →
     run_step env st1 job_id s.id none = (.ok s9, st2) →
     load_job st2 job_id = (some job2, st3) →
     job2.steps.find? (fun x => x.id == s.id) = some s2 →
     s2.status = StepStatus.NEEDS_REVIEW →
       run_job_loop env st job_id job (s :: rest) =
         (.ok { job2 with status := JobStatus.PAUSED },
          emit_job_updated
            (emit_log (save_job st3 { job2 with status := JobStatus.PAUSED })
              job_id "Job paused - step needs review" "warning") job_id)) ∧
    (s.status = StepStatus.QUEUED →
     load_job st job_id = (some cur, st1) →
     cur.status = JobStatus.RUNNING →
     run_step env st1 job_id s.id none = (.ok s9, st2) →
     load_job st2 job_id = (some job2, st3) →
     job2.steps.find? (fun x => x.id == s.id) = some s2 →
     s2.status = StepStatus.FAILED →
       run_job_loop env st job_id job (s :: rest) =
         (.ok { job2 with status := JobStatus.FAILED },
          emit_job_updated
            (emit_log (save_job st3 { job2 with status := JobStatus.FAILED })
              job_id "Job failed" "error") job_id)) ∧
    (s.status = StepStatus.QUEUED →
     load_job st job_id = (some cur, st1) →
     cur.status = JobStatus.RUNNING →
     run_step env st1 job_id s.id none = (.ok s9, st2) →
     load_job st2 job_id = (some job2, st3) →
     job2.steps.find? (fun x => x.id == s.id) = some s2 →
     s2.status ≠ StepStatus.NEEDS_REVIEW → s2.status ≠ StepStatus.FAILED →
       run_job_loop env st job_id job (s :: rest) =
         run_job_loop env st3 job_id job2 rest) ∧
    (run_job_loop env st job_id job [] =
       (.ok { job with status := JobStatus.DONE },
        emit_job_updated
          (emit_log (save_job st { job with status := JobStatus.DONE })
            job_id "Job completed successfully!" "success") job_id)) ∧
    (s.status = StepStatus.QUEUED →
     load_job st job_id = (some cur, st1) →
     cur.status = JobStatus.RUNNING →
     run_step env st1 job_id s.id none = (.error msg, st2) →
       run_job_loop env st job_id job (s :: rest) =
         (.error msg,
          emit_job_updated
            (emit_log (save_job st2 { cur with status := JobStatus.FAILED })
              job_id ("Job failed: " ++ msg) "error") job_id)) := by
  refine ⟨?_, ?_, ?_, ?_, ?_, ?_, ?_⟩
  · intro h1
    simp only [run_job_loop]
    rw [if_pos h1]
  · intro h1 hload h3
    simp only [run_job_loop, hload]
    rw [if_neg (by simp [h1]), if_pos h3]
  · intro h1 hload h3 hrun hload2 hfind h7
    simp only [run_job_loop, hload, hrun, hload2, hfind]
    rw [if_neg (by simp [h1]), if_neg (by simp [h3]), if_pos h7]
  · intro h1 hload h3 hrun hload2 hfind h7
    simp only [run_job_loop, hload, hrun, hload2, hfind]
    rw [if_neg (by simp [h1]), if_neg (by simp [h3]),
      if_neg (by simp [h7]), if_pos h7]
  · intro h1 hload h3 hrun hload2 hfind h7 h8
    simp only [run_job_loop, hload, hrun, hload2, hfind]
    rw [if_neg (by simp [h1]), if_neg (by simp [h3]),
      if_neg h7, if_neg h8]
  · simp only [run_job_loop, run_job_fail]
  · intro h1 hload h3 hrun
    simp only [run_job_loop, hload, hrun, run_job_fail]
    rw [if_neg (by simp [h1]), if_neg (by simp [h3])]

/-- C6 witness: the scheduler gates applied at a concrete job — a
non-QUEUED step is skipped, and an exhausted loop marks the job DONE. -/
theorem C6_run_job_scheduler_gates_witness :
    run_job_loop envA c7wst "j" c7wjob [c6sDone] =
      run_job_loop envA c7wst "j" c7wjob [] ∧
    (run_job_loop envA c7wst "j" c7wjob []).1 =
      .ok { c7wjob with status := JobStatus.DONE } := by
  have h := C6_run_job_scheduler_gates envA c7wst c7wst c7wst c7wst "j" ""
    c7wjob c7wjob c7wjob c6sDone c6sDone c6sDone []
  refine ⟨h.1 (by decide), ?_⟩
  rw [h.2.2.2.2.2.1]
